/-
Verification development for the AnalyticsMP library
(https://github.com/RomainVialard/AnalyticsMP).

The library is a Google Apps Script client for the Google Analytics
Measurement Protocol.  Its behaviour is embedded shallowly below:

* JavaScript parameter objects become association lists over a small
  value type `JSVal` (strings, numbers, booleans — the values that
  survive `JSON.parse(JSON.stringify(...))` in this code base);
* the injected `PropertiesService` property store becomes an
  association list of strings, threaded explicitly together with
  counters for the number of `getProperty` / `setProperty` calls;
* the process-wide mutable cell `AnalyticsMP_.clientId` becomes an
  explicit `ProcState` value that is threaded through calls;
* `Utilities.getUuid()` and `Math.random()` are external oracles and
  become explicit arguments (`uuid : String`, and `rand : Nat` standing
  for a double `rand / 2^53` in `[0, 1)`, the standard generator model);
* the process-wide global `ANALYTICS_TRACKING_ID` becomes an argument
  `cfg : Option String` (`none` = unset/undefined).

The definitions follow `src/AnalyticsMP.js` line by line; the source
line numbers are cited in comments.
-/
import Mathlib

set_option autoImplicit false

namespace AnalyticsMP

/-! ## JavaScript values and truthiness -/

/-- The JavaScript values that occur in this library's parameter
objects: strings, (non-negative integral) numbers, and booleans. -/
inductive JSVal where
  | str (s : String)
  | num (n : Nat)
  | bool (b : Bool)
  deriving DecidableEq, Repr

/-- JavaScript truthiness of a `JSVal`: `""`, `0` and `false` are the
falsy values in play. -/
def jsTruthyV : JSVal → Bool
  | .str s => !(s = "")
  | .num n => !(n = 0)
  | .bool b => b

/-- Truthiness of a property access (`undefined`, i.e. `none`, is falsy). -/
def jsTruthy : Option JSVal → Bool
  | none => false
  | some v => jsTruthyV v

/-- Truthiness for string-or-undefined values (globals, property-store
reads): `undefined`/`null` and `""` are falsy. -/
def jsTruthyStr : Option String → Bool
  | none => false
  | some s => !(s = "")

/-- JavaScript string coercion of a `JSVal` (as applied by `encodeURI`
and string concatenation). -/
def jsToString : JSVal → String
  | .str s => s
  | .num n => toString n
  | .bool b => if b then "true" else "false"

/-! ## Key/value maps (JavaScript object model)

A flat JavaScript object is an association list keeping insertion
order; property assignment overwrites in place or appends, and `for-in`
enumerates in list order (all keys in this library are non-numeric
strings, for which JavaScript guarantees insertion order). -/

/-- Read a property: `o[k]`, `none` = `undefined`. -/
def lookupKV {α : Type} : List (String × α) → String → Option α
  | [], _ => none
  | (k0, v0) :: rest, k => if k0 = k then some v0 else lookupKV rest k

/-- Write a property: `o[k] = v` (overwrite in place, else append). -/
def setKV {α : Type} : List (String × α) → String → α → List (String × α)
  | [], k, v => [(k, v)]
  | (k0, v0) :: rest, k, v =>
      if k0 = k then (k0, v) :: rest else (k0, v0) :: setKV rest k v

/-- A Measurement Protocol parameter object. -/
abbrev Params : Type := List (String × JSVal)

/-! ## The property store and the process state -/

/-- The injected `PropertiesService.Properties` store: a durable
string-to-string key/value store. -/
abbrev Store : Type := List (String × String)

/-- The process-local mutable state of the library: the cached client
identifier `AnalyticsMP_.clientId` (initially `undefined`). -/
structure ProcState where
  clientId : Option String
  deriving DecidableEq, Repr

/-- Result of one `getAnalyticsClientId` call: the returned identifier,
the process state and store afterwards, and how many store reads
(`getProperty`) and writes (`setProperty`) the call performed. -/
structure GAResult where
  cid : String
  st : ProcState
  store : Store
  reads : Nat
  writes : Nat
  deriving DecidableEq, Repr

/-- `getAnalyticsClientId(optPropertyStore)` — src/AnalyticsMP.js,
lines 78–94.  `uuid` is the oracle for `Utilities.getUuid()`.

```
if (AnalyticsMP_.clientId) return AnalyticsMP_.clientId;
AnalyticsMP_.clientId = optPropertyStore.getProperty('clientId');
if (!AnalyticsMP_.clientId) {
  AnalyticsMP_.clientId = Utilities.getUuid();
  optPropertyStore.setProperty('clientId', AnalyticsMP_.clientId);
}
return AnalyticsMP_.clientId;
``` -/
def getAnalyticsClientId (uuid : String) (st : ProcState) (store : Store) :
    GAResult :=
  if jsTruthyStr st.clientId = true then
    -- line 80: cached identifier, no store access
    ⟨st.clientId.getD "", st, store, 0, 0⟩
  else
    -- line 86: one getProperty read
    let read := lookupKV store "clientId"
    if jsTruthyStr read = true then
      ⟨read.getD "", ⟨read⟩, store, 1, 0⟩
    else
      -- lines 88–91: generate a UUID and persist it (one write)
      ⟨uuid, ⟨some uuid⟩, setKV store "clientId" uuid, 1, 1⟩

/-- Result of a sequence of `getAnalyticsClientId` calls in one process. -/
structure RunRes where
  cids : List String
  st : ProcState
  store : Store
  writes : Nat
  deriving DecidableEq, Repr

/-- Run a sequence of `getAnalyticsClientId` calls within a single
process/store pair, threading the cache and the store and summing the
store writes.  The list supplies one `Utilities.getUuid()` oracle value
per call. -/
def runGetClientIdCalls : List String → ProcState → Store → RunRes
  | [], st, store => ⟨[], st, store, 0⟩
  | u :: us, st, store =>
      let r := getAnalyticsClientId u st store
      let rest := runGetClientIdCalls us r.st r.store
      ⟨r.cid :: rest.cids, rest.st, rest.store, r.writes + rest.writes⟩

/-- UUID format check (8-4-4-4-12 hexadecimal digits), the shape of
strings produced by the `Utilities.getUuid()` collaborator. -/
def isHexDig (c : Char) : Bool :=
  (Char.ofNat 48 ≤ c && c ≤ Char.ofNat 57) ||
  (Char.ofNat 97 ≤ c && c ≤ Char.ofNat 102) ||
  (Char.ofNat 65 ≤ c && c ≤ Char.ofNat 70)

/-- A string is UUID-formatted when it has 36 characters with hyphens
at positions 8, 13, 18 and 23 and hexadecimal digits elsewhere. -/
def isUuidFormat (s : String) : Bool :=
  s.data.length = 36 &&
  (List.range 36).all (fun i =>
    if i = 8 || i = 13 || i = 18 || i = 23 then s.data.getD i ' ' = '-'
    else isHexDig (s.data.getD i ' '))

/-! ## Parameter normalization -/

/-- The single error message of the library —
`AnalyticsMP_.ERROR.TRACKING_ID_REQUIRED`, src/AnalyticsMP.js line 118. -/
def TRACKING_ID_REQUIRED : String :=
  "A valid Google Analytics tracking ID is required"

/-- `Math.floor(Math.random() * 10E7)` — src/AnalyticsMP.js line 154.
`10E7 = 10 * 10^7 = 10^8`; `Math.random()` is modelled as `rand / 2^53`
with `rand < 2^53` (the generator returns a dyadic rational of that
form in `[0, 1)`), so the floor is `rand * 10^8 / 2^53` exactly. -/
def jsRandFloor (rand : Nat) : Nat :=
  rand * 100000000 / 9007199254740992

/-- The pure mutation chain of `AnalyticsMP_._addRequiredParameters`
after the tracking-ID check and the client-ID call —
src/AnalyticsMP.js lines 144–164, applied to the cloned object:

```
params['cid'] = getAnalyticsClientId(optPropertyStore);       // 144
params['t'] = params['t'] || 'event';                          // 148
params['t'] === 'event' && !params['el'] && (params['el'] = ''); // 151
params['v'] = '1';                                             // 153
params['z'] = Math.floor(Math.random() * 10E7);                // 154
if (sentViaUrlFetch) {
  params['ds'] = params['ds'] || 'urlFetch';                   // 158
  params['aip'] = '1';                                         // 161
}
``` -/
def restParams (cid : String) (rand : Nat) (params : Params) (via : Bool) :
    Params :=
  let p1 := setKV params "cid" (JSVal.str cid)
  let p2 := if jsTruthy (lookupKV p1 "t") = true then p1
            else setKV p1 "t" (JSVal.str "event")
  let p3 := if lookupKV p2 "t" = some (JSVal.str "event") ∧
               jsTruthy (lookupKV p2 "el") = false
            then setKV p2 "el" (JSVal.str "") else p2
  let p4 := setKV p3 "v" (JSVal.str "1")
  let p5 := setKV p4 "z" (JSVal.num (jsRandFloor rand))
  if via = true then
    let p6 := if jsTruthy (lookupKV p5 "ds") = true then p5
              else setKV p5 "ds" (JSVal.str "urlFetch")
    setKV p6 "aip" (JSVal.str "1")
  else p5

/-- Result of one `_addRequiredParameters` call: the normalized
parameters (or the thrown error message), the process state and store
afterwards, and the number of store reads and writes performed. -/
structure NormRes where
  result : Except String Params
  st : ProcState
  store : Store
  reads : Nat
  writes : Nat

/-- `AnalyticsMP_._addRequiredParameters(parameters, optPropertyStore,
sentViaUrlFetch)` — src/AnalyticsMP.js lines 135–165.
`cfg` is the process-wide global `ANALYTICS_TRACKING_ID`.

```
var params = JSON.parse(JSON.stringify(parameters));           // 136
if (!params['tid']) {                                          // 138
  if (!ANALYTICS_TRACKING_ID) throw new Error(TRACKING_ID_REQUIRED); // 139
  params['tid'] = ANALYTICS_TRACKING_ID;                       // 141
}
... (lines 144-164, see restParams) ...
return params;                                                 // 164
```
The `JSON.parse(JSON.stringify(...))` deep copy is value-level
identity on a flat object of scalars; its heap effect (allocating a
fresh object so that the caller's object is never mutated) is modelled
separately by `addRequiredParametersHeap`. -/
def addRequiredParameters (cfg : Option String) (uuid : String) (rand : Nat)
    (parameters : Params) (st : ProcState) (store : Store) (via : Bool) :
    NormRes :=
  let params := parameters
  if jsTruthy (lookupKV params "tid") = false then
    if jsTruthyStr cfg = false then
      -- line 139: throw before any store access
      ⟨.error TRACKING_ID_REQUIRED, st, store, 0, 0⟩
    else
      let g := getAnalyticsClientId uuid st store
      ⟨.ok (restParams g.cid rand
              (setKV params "tid" (JSVal.str (cfg.getD ""))) via),
       g.st, g.store, g.reads, g.writes⟩
  else
    let g := getAnalyticsClientId uuid st store
    ⟨.ok (restParams g.cid rand params via), g.st, g.store, g.reads, g.writes⟩

/-! ## Heap model of the deep copy (object identity) -/

/-- A heap of JavaScript objects; object references are indices. -/
abbrev Heap : Type := List Params

/-- Dereference an object (out-of-range yields the empty object). -/
def heapGet : Heap → Nat → Params
  | [], _ => []
  | p :: _, 0 => p
  | _ :: t, n + 1 => heapGet t n

/-- Overwrite the object at a reference. -/
def heapSet : Heap → Nat → Params → Heap
  | [], _, _ => []
  | _ :: t, 0, p => p :: t
  | x :: t, n + 1, p => x :: heapSet t n p

/-- Heap-level view of `_addRequiredParameters`: line 136 allocates a
fresh object (`JSON.parse(JSON.stringify(parameters))`) at a new
reference `h.length`, and every subsequent `params[...] = ...`
assignment of lines 138–161 mutates only that fresh cell; the net
contents of the cell are given by `addRequiredParameters`.  The
caller's object at `pRef` is only ever read. -/
def addRequiredParametersHeap (cfg : Option String) (uuid : String)
    (rand : Nat) (pRef : Nat) (h : Heap) (st : ProcState) (store : Store)
    (via : Bool) : Except String Nat × Heap × ProcState × Store :=
  let r := h.length
  let h0 := h ++ [heapGet h pRef]
  let n := addRequiredParameters cfg uuid rand (heapGet h0 r) st store via
  match n.result with
  | .error e => (.error e, h0, n.st, n.store)
  | .ok ps => (.ok r, heapSet h0 r ps, n.st, n.store)

/-! ## URL serialization -/

/-- Characters left unescaped by JavaScript's `encodeURI`. -/
def uriAllowed (c : Char) : Bool :=
  (Char.ofNat 65 ≤ c && c ≤ Char.ofNat 90) ||
  (Char.ofNat 97 ≤ c && c ≤ Char.ofNat 122) ||
  (Char.ofNat 48 ≤ c && c ≤ Char.ofNat 57) ||
  c = '-' || c = '_' || c = '.' || c = '!' || c = '~' || c = '*' ||
  c = Char.ofNat 39 || c = '(' || c = ')' ||
  c = ';' || c = '/' || c = '?' || c = ':' || c = '@' || c = '&' ||
  c = '=' || c = '+' || c = '$' || c = ',' || c = '#'

/-- Upper-case hexadecimal digit. -/
def hexDigit (n : Nat) : Char :=
  if n < 10 then Char.ofNat (48 + n) else Char.ofNat (55 + n)

/-- `%XX` escape of one byte. -/
def percentByte (b : Nat) : String :=
  String.mk ['%', hexDigit (b / 16), hexDigit (b % 16)]

/-- UTF-8 bytes of a code point. -/
def utf8Bytes (n : Nat) : List Nat :=
  if n < 128 then [n]
  else if n < 2048 then [192 + n / 64, 128 + n % 64]
  else if n < 65536 then
    [224 + n / 4096, 128 + n / 64 % 64, 128 + n % 64]
  else
    [240 + n / 262144, 128 + n / 4096 % 64, 128 + n / 64 % 64, 128 + n % 64]

/-- JavaScript's `encodeURI`: keep the allowed characters, escape every
other character as percent-encoded UTF-8 bytes. -/
def encodeURI (s : String) : String :=
  String.join (s.data.map (fun c =>
    if uriAllowed c then String.mk [c]
    else String.join ((utf8Bytes c.toNat).map percentByte)))

/-- Result of one `generateAnalyticsTrackingUrl` call. -/
structure UrlRes where
  result : Except String String
  st : ProcState
  store : Store

/-- `generateAnalyticsTrackingUrl(parameters, optPropertyStore)` —
src/AnalyticsMP.js lines 51–61 (the call passes no `sentViaUrlFetch`,
so `via = false`):

```
var params = AnalyticsMP_._addRequiredParameters(parameters, optPropertyStore);
var urlParams = [];
for (var key in params) {
  urlParams.push(key + (params[key] === '' ? '' : '=' + encodeURI(params[key])));
}
return 'https://www.google-analytics.com/collect?' + urlParams.join('&amp;');
``` -/
def generateAnalyticsTrackingUrl (cfg : Option String) (uuid : String)
    (rand : Nat) (parameters : Params) (st : ProcState) (store : Store) :
    UrlRes :=
  let n := addRequiredParameters cfg uuid rand parameters st store false
  match n.result with
  | .error e => ⟨.error e, n.st, n.store⟩
  | .ok params =>
      let urlParams := params.map (fun kv =>
        kv.1 ++ (if kv.2 = JSVal.str "" then ""
                 else "=" ++ encodeURI (jsToString kv.2)))
      ⟨.ok ("https://www.google-analytics.com/collect?" ++
            String.intercalate "&amp;" urlParams),
       n.st, n.store⟩

/-- Modelled from the spec: the serialization rule of §4.3 — for each
key in the set's order, emit the key alone when its value is
empty/falsy, otherwise emit `key=percent-encoded-value`, and join all
pairs with a literal ampersand character.  Stated only to be compared
with the source-derived `generateAnalyticsTrackingUrl`. -/
def specSerializeClaim (params : Params) : String :=
  String.intercalate "&" (params.map (fun kv =>
    if jsTruthyV kv.2 = false then kv.1
    else kv.1 ++ "=" ++ encodeURI (jsToString kv.2)))

/-! ## Basic lemmas -/

theorem lookupKV_setKV {α : Type} (p : List (String × α)) (k k' : String)
    (v : α) :
    lookupKV (setKV p k v) k' = if k = k' then some v else lookupKV p k' := by
  induction p with
  | nil => simp [setKV, lookupKV]
  | cons hd tl ih =>
    obtain ⟨k0, v0⟩ := hd
    by_cases h0 : k0 = k
    · subst h0
      by_cases h1 : k0 = k'
      · subst h1; simp [setKV, lookupKV]
      · simp [setKV, lookupKV, h1]
    · by_cases h1 : k0 = k'
      · subst h1
        have hkk : ¬ k = k0 := fun h => h0 h.symm
        simp [setKV, lookupKV, h0, hkk]
      · simp [setKV, lookupKV, h0, h1, ih]

theorem jsTruthy_isSome (o : Option JSVal) (h : jsTruthy o = true) :
    o.isSome = true := by
  cases o <;> simp_all [jsTruthy]

theorem isUuidFormat_ne_empty (s : String) (h : isUuidFormat s = true) :
    s ≠ "" := by
  intro he
  rw [he] at h
  exact absurd h (by decide)

/-! ## Lemmas about the client-identifier store -/

/-- After any call, the returned identifier is exactly the cached one. -/
theorem getAnalyticsClientId_cache_eq (uuid : String) (st : ProcState)
    (store : Store) :
    (getAnalyticsClientId uuid st store).st.clientId =
      some (getAnalyticsClientId uuid st store).cid := by
  simp only [getAnalyticsClientId]
  split_ifs with h1 h2
  · cases hc : st.clientId with
    | none => rw [hc] at h1; simp [jsTruthyStr] at h1
    | some c => simp [hc]
  · cases hr : lookupKV store "clientId" with
    | none => rw [hr] at h2; simp [jsTruthyStr] at h2
    | some c => simp [hr]
  · simp

/-- After a call whose generated UUID is nonempty, the cache is truthy. -/
theorem getAnalyticsClientId_cache_truthy (uuid : String) (st : ProcState)
    (store : Store) (hu : uuid ≠ "") :
    jsTruthyStr (getAnalyticsClientId uuid st store).st.clientId = true := by
  simp only [getAnalyticsClientId]
  split_ifs with h1 h2
  · exact h1
  · exact h2
  · simpa [jsTruthyStr] using hu

/-- A call that finds a truthy cached identifier is pure: it returns the
cached value and touches nothing. -/
theorem getAnalyticsClientId_cached (uuid : String) (st : ProcState)
    (store : Store) (c : String) (hc : st.clientId = some c) (htc : c ≠ "") :
    getAnalyticsClientId uuid st store = ⟨c, st, store, 0, 0⟩ := by
  simp only [getAnalyticsClientId]
  rw [if_pos (by simpa [hc, jsTruthyStr] using htc)]
  simp [hc]

/-- Each call performs at most one store write. -/
theorem getAnalyticsClientId_writes_le_one (uuid : String) (st : ProcState)
    (store : Store) :
    (getAnalyticsClientId uuid st store).writes ≤ 1 := by
  simp only [getAnalyticsClientId]
  split_ifs <;> simp

/-- Once the cache holds a truthy identifier, a whole run of calls is
pure and returns that identifier every time. -/
theorem runGetClientIdCalls_cached (us : List String) (st : ProcState)
    (store : Store) (c : String) (hc : st.clientId = some c) (htc : c ≠ "") :
    runGetClientIdCalls us st store =
      ⟨List.replicate us.length c, st, store, 0⟩ := by
  induction us with
  | nil => simp [runGetClientIdCalls]
  | cons u rest ih =>
    simp only [runGetClientIdCalls]
    rw [getAnalyticsClientId_cached u st store c hc htc]
    simp [ih, List.replicate]

/-! ## Per-key lemmas about `restParams` -/

theorem restParams_tid (cid : String) (rand : Nat) (p : Params) (via : Bool) :
    lookupKV (restParams cid rand p via) "tid" = lookupKV p "tid" := by
  simp only [restParams]
  split_ifs <;> simp_all [lookupKV_setKV]

theorem restParams_cid (cid : String) (rand : Nat) (p : Params) (via : Bool) :
    lookupKV (restParams cid rand p via) "cid" = some (JSVal.str cid) := by
  simp only [restParams]
  split_ifs <;> simp_all [lookupKV_setKV]

theorem restParams_v (cid : String) (rand : Nat) (p : Params) (via : Bool) :
    lookupKV (restParams cid rand p via) "v" = some (JSVal.str "1") := by
  simp only [restParams]
  split_ifs <;> simp_all [lookupKV_setKV]

theorem restParams_z (cid : String) (rand : Nat) (p : Params) (via : Bool) :
    lookupKV (restParams cid rand p via) "z" =
      some (JSVal.num (jsRandFloor rand)) := by
  simp only [restParams]
  split_ifs <;> simp_all [lookupKV_setKV]

theorem restParams_t (cid : String) (rand : Nat) (p : Params) (via : Bool) :
    lookupKV (restParams cid rand p via) "t" =
      (if jsTruthy (lookupKV p "t") = true then lookupKV p "t"
       else some (JSVal.str "event")) := by
  simp only [restParams]
  split_ifs <;> simp_all [lookupKV_setKV]

theorem restParams_el (cid : String) (rand : Nat) (p : Params) (via : Bool) :
    lookupKV (restParams cid rand p via) "el" =
      (if (if jsTruthy (lookupKV p "t") = true then lookupKV p "t"
           else some (JSVal.str "event")) = some (JSVal.str "event") ∧
          jsTruthy (lookupKV p "el") = false
       then some (JSVal.str "") else lookupKV p "el") := by
  simp only [restParams]
  split_ifs <;> simp_all [lookupKV_setKV]

theorem restParams_ds (cid : String) (rand : Nat) (p : Params) (via : Bool) :
    lookupKV (restParams cid rand p via) "ds" =
      (if via = true then
        (if jsTruthy (lookupKV p "ds") = true then lookupKV p "ds"
         else some (JSVal.str "urlFetch"))
       else lookupKV p "ds") := by
  simp only [restParams]
  split_ifs <;> simp_all [lookupKV_setKV]

theorem restParams_aip (cid : String) (rand : Nat) (p : Params) (via : Bool) :
    lookupKV (restParams cid rand p via) "aip" =
      (if via = true then some (JSVal.str "1") else lookupKV p "aip") := by
  simp only [restParams]
  split_ifs <;> simp_all [lookupKV_setKV]

/-! ## Shape lemmas for the three branches of `_addRequiredParameters` -/

theorem addRequiredParameters_tid_truthy (cfg : Option String) (uuid : String)
    (rand : Nat) (ps : Params) (st : ProcState) (store : Store) (via : Bool)
    (h : jsTruthy (lookupKV ps "tid") = true) :
    addRequiredParameters cfg uuid rand ps st store via =
      ⟨.ok (restParams (getAnalyticsClientId uuid st store).cid rand ps via),
       (getAnalyticsClientId uuid st store).st,
       (getAnalyticsClientId uuid st store).store,
       (getAnalyticsClientId uuid st store).reads,
       (getAnalyticsClientId uuid st store).writes⟩ := by
  simp only [addRequiredParameters]
  rw [if_neg (by simp [h])]

theorem addRequiredParameters_tid_falsy_cfg (cfg : Option String)
    (uuid : String) (rand : Nat) (ps : Params) (st : ProcState) (store : Store)
    (via : Bool) (h : jsTruthy (lookupKV ps "tid") = false)
    (hc : jsTruthyStr cfg = true) :
    addRequiredParameters cfg uuid rand ps st store via =
      ⟨.ok (restParams (getAnalyticsClientId uuid st store).cid rand
              (setKV ps "tid" (JSVal.str (cfg.getD ""))) via),
       (getAnalyticsClientId uuid st store).st,
       (getAnalyticsClientId uuid st store).store,
       (getAnalyticsClientId uuid st store).reads,
       (getAnalyticsClientId uuid st store).writes⟩ := by
  simp only [addRequiredParameters]
  rw [if_pos h, if_neg (by simp [hc])]

theorem addRequiredParameters_tid_falsy_nocfg (cfg : Option String)
    (uuid : String) (rand : Nat) (ps : Params) (st : ProcState) (store : Store)
    (via : Bool) (h : jsTruthy (lookupKV ps "tid") = false)
    (hc : jsTruthyStr cfg = false) :
    addRequiredParameters cfg uuid rand ps st store via =
      ⟨.error TRACKING_ID_REQUIRED, st, store, 0, 0⟩ := by
  simp only [addRequiredParameters]
  rw [if_pos h, if_pos hc]

/-- A call that finds the cache empty but the store populated performs
no write. -/
theorem getAnalyticsClientId_read_hit (uuid : String) (st : ProcState)
    (store : Store) (h1 : jsTruthyStr st.clientId = false)
    (h2 : jsTruthyStr (lookupKV store "clientId") = true) :
    (getAnalyticsClientId uuid st store).writes = 0 := by
  simp only [getAnalyticsClientId]
  rw [if_neg (by simp [h1]), if_pos h2]

/-! ## Heap lemmas -/

theorem heapGet_heapSet_ne (h : Heap) (i j : Nat) (p : Params)
    (hne : j ≠ i) :
    heapGet (heapSet h i p) j = heapGet h j := by
  induction h generalizing i j with
  | nil => simp [heapSet]
  | cons hd tl ih =>
    cases i with
    | zero =>
      cases j with
      | zero => exact absurd rfl hne
      | succ j' => simp [heapSet, heapGet]
    | succ i' =>
      cases j with
      | zero => simp [heapSet, heapGet]
      | succ j' => simpa [heapSet, heapGet] using ih i' j' (fun h => hne (by omega))

theorem heapGet_append_lt (h : Heap) (x : Params) (j : Nat)
    (hj : j < h.length) :
    heapGet (h ++ [x]) j = heapGet h j := by
  induction h generalizing j with
  | nil => simp at hj
  | cons hd tl ih =>
    cases j with
    | zero => simp [heapGet]
    | succ j' =>
      simp only [List.cons_append, heapGet]
      exact ih j' (by simpa using hj)

/-- Any successful normalization arises from one of the two non-throwing
branches of the tracking-ID check. -/
theorem addRequiredParameters_ok_cases (cfg : Option String) (uuid : String)
    (rand : Nat) (ps : Params) (st : ProcState) (store : Store) (via : Bool)
    (res : Params)
    (h : (addRequiredParameters cfg uuid rand ps st store via).result =
      .ok res) :
    (jsTruthy (lookupKV ps "tid") = true ∧
       res = restParams (getAnalyticsClientId uuid st store).cid rand ps via) ∨
    (jsTruthy (lookupKV ps "tid") = false ∧ jsTruthyStr cfg = true ∧
       res = restParams (getAnalyticsClientId uuid st store).cid rand
               (setKV ps "tid" (JSVal.str (cfg.getD ""))) via) := by
  cases h1 : jsTruthy (lookupKV ps "tid") with
  | true =>
    left
    rw [addRequiredParameters_tid_truthy cfg uuid rand ps st store via h1] at h
    simp at h
    exact ⟨rfl, h.symm⟩
  | false =>
    cases h2 : jsTruthyStr cfg with
    | true =>
      right
      rw [addRequiredParameters_tid_falsy_cfg cfg uuid rand ps st store via
        h1 h2] at h
      simp at h
      exact ⟨rfl, rfl, h.symm⟩
    | false =>
      rw [addRequiredParameters_tid_falsy_nocfg cfg uuid rand ps st store via
        h1 h2] at h
      simp at h

/-- The event-label behaviour of the mutation chain, phrased through the
resulting hit type. -/
theorem restParams_el_cases (cid : String) (rand : Nat) (p : Params)
    (via : Bool) :
    (lookupKV (restParams cid rand p via) "t" = some (JSVal.str "event") →
       lookupKV p "el" = none →
       lookupKV (restParams cid rand p via) "el" = some (JSVal.str "")) ∧
    (lookupKV (restParams cid rand p via) "t" ≠ some (JSVal.str "event") →
       lookupKV p "el" = none →
       lookupKV (restParams cid rand p via) "el" = none) := by
  rw [restParams_t, restParams_el]
  constructor
  · intro ht hel
    rw [if_pos ⟨ht, by simp [hel, jsTruthy]⟩]
  · intro ht hel
    rw [if_neg (fun hc => ht hc.1), hel]

/-! ## Claim theorems -/

/-- Claim C1: for every parameter set without a `tid` key and with the
process-wide tracking ID unset, normalization throws the
tracking-ID-required configuration error with zero store reads and
zero store writes (store and process state untouched); moreover that
error is the only explicit failure path of `_addRequiredParameters`. -/
theorem normalize_missing_tid_fails_before_store_access
    (cfg : Option String) (uuid : String) (rand : Nat) (ps : Params)
    (st : ProcState) (store : Store) (via : Bool)
    (htid : lookupKV ps "tid" = none) (hcfg : cfg = none) :
    addRequiredParameters cfg uuid rand ps st store via =
      ⟨.error TRACKING_ID_REQUIRED, st, store, 0, 0⟩ ∧
    (∀ (cfg2 : Option String) (uuid2 : String) (rand2 : Nat) (ps2 : Params)
       (st2 : ProcState) (store2 : Store) (via2 : Bool) (e : String),
       (addRequiredParameters cfg2 uuid2 rand2 ps2 st2 store2 via2).result =
         .error e →
       e = TRACKING_ID_REQUIRED ∧ jsTruthy (lookupKV ps2 "tid") = false ∧
         jsTruthyStr cfg2 = false) := by
  constructor
  · exact addRequiredParameters_tid_falsy_nocfg cfg uuid rand ps st store via
      (by simp [htid, jsTruthy]) (by simp [hcfg, jsTruthyStr])
  · intro cfg2 uuid2 rand2 ps2 st2 store2 via2 e he
    cases h1 : jsTruthy (lookupKV ps2 "tid") with
    | true =>
      rw [addRequiredParameters_tid_truthy cfg2 uuid2 rand2 ps2 st2 store2
        via2 h1] at he
      simp at he
    | false =>
      cases h2 : jsTruthyStr cfg2 with
      | true =>
        rw [addRequiredParameters_tid_falsy_cfg cfg2 uuid2 rand2 ps2 st2
          store2 via2 h1 h2] at he
        simp at he
      | false =>
        rw [addRequiredParameters_tid_falsy_nocfg cfg2 uuid2 rand2 ps2 st2
          store2 via2 h1 h2] at he
        simp at he
        exact ⟨he.symm, rfl, rfl⟩

theorem normalize_missing_tid_fails_before_store_access_witness :
    addRequiredParameters none "u" 0 [] ⟨none⟩ [] true =
      ⟨.error TRACKING_ID_REQUIRED, ⟨none⟩, [], 0, 0⟩ :=
  (normalize_missing_tid_fails_before_store_access none "u" 0 [] ⟨none⟩ []
    true rfl rfl).1

/-- Claim C3: normalization operates on an independent deep copy of the
caller's object — after the call the caller's object is unchanged (no
key added, removed or overwritten), on the error path as well as on the
success path, and the reference returned on success is a freshly
allocated object distinct from the caller's. -/
theorem normalize_caller_object_unchanged
    (cfg : Option String) (uuid : String) (rand : Nat) (pRef : Nat)
    (h : Heap) (st : ProcState) (store : Store) (via : Bool)
    (hp : pRef < h.length) :
    heapGet
        (addRequiredParametersHeap cfg uuid rand pRef h st store via).2.1
        pRef = heapGet h pRef ∧
    (∀ r,
       (addRequiredParametersHeap cfg uuid rand pRef h st store via).1 =
         .ok r → r ≠ pRef) := by
  simp only [addRequiredParametersHeap]
  split
  · constructor
    · exact heapGet_append_lt h _ pRef hp
    · intro r hr
      simp at hr
  · constructor
    · rw [heapGet_heapSet_ne _ _ _ _ (by omega)]
      exact heapGet_append_lt h _ pRef hp
    · intro r hr
      simp at hr
      omega

theorem normalize_caller_object_unchanged_witness :
    heapGet
        (addRequiredParametersHeap (some "UA-1") "u" 0 0
          [[("x", JSVal.str "y")]] ⟨none⟩ [] false).2.1 0 =
      heapGet [[("x", JSVal.str "y")]] 0 :=
  (normalize_caller_object_unchanged (some "UA-1") "u" 0 0
    [[("x", JSVal.str "y")]] ⟨none⟩ [] false (by decide)).1

/-- Claim C4: from an empty property store and an empty in-process
cache, the first `getAnalyticsClientId` call generates the
UUID-formatted identifier, persists it in the store under `clientId`
(exactly one write) and returns it; a fresh process (empty cache)
pointed at the same persisted store then returns exactly that persisted
value with no store write, whatever UUID its own generator would have
produced. -/
theorem getClientId_first_generates_second_process_reads
    (uuid uuid2 : String) (hu : isUuidFormat uuid = true) :
    getAnalyticsClientId uuid ⟨none⟩ [] =
      ⟨uuid, ⟨some uuid⟩, [("clientId", uuid)], 1, 1⟩ ∧
    isUuidFormat (getAnalyticsClientId uuid ⟨none⟩ []).cid = true ∧
    lookupKV (getAnalyticsClientId uuid ⟨none⟩ []).store "clientId" =
      some uuid ∧
    getAnalyticsClientId uuid2 ⟨none⟩ [("clientId", uuid)] =
      ⟨uuid, ⟨some uuid⟩, [("clientId", uuid)], 1, 0⟩ := by
  have hne := isUuidFormat_ne_empty uuid hu
  have h1 : getAnalyticsClientId uuid ⟨none⟩ [] =
      ⟨uuid, ⟨some uuid⟩, [("clientId", uuid)], 1, 1⟩ := by
    simp [getAnalyticsClientId, jsTruthyStr, lookupKV, setKV]
  refine ⟨h1, ?_, ?_, ?_⟩
  · rw [h1]; exact hu
  · rw [h1]; simp [lookupKV]
  · simp [getAnalyticsClientId, jsTruthyStr, lookupKV, hne]

theorem getClientId_first_generates_second_process_reads_witness :
    getAnalyticsClientId "123e4567-e89b-42d3-a456-426614174000" ⟨none⟩ [] =
      ⟨"123e4567-e89b-42d3-a456-426614174000",
       ⟨some "123e4567-e89b-42d3-a456-426614174000"⟩,
       [("clientId", "123e4567-e89b-42d3-a456-426614174000")], 1, 1⟩ ∧
    getAnalyticsClientId "zzz" ⟨none⟩
        [("clientId", "123e4567-e89b-42d3-a456-426614174000")] =
      ⟨"123e4567-e89b-42d3-a456-426614174000",
       ⟨some "123e4567-e89b-42d3-a456-426614174000"⟩,
       [("clientId", "123e4567-e89b-42d3-a456-426614174000")], 1, 0⟩ := by
  have h := getClientId_first_generates_second_process_reads
    "123e4567-e89b-42d3-a456-426614174000" "zzz" (by decide)
  exact ⟨h.1, h.2.2.2⟩

/-- Claim C5: within one process/store pair `getAnalyticsClientId` is
idempotent — every call of the run returns the identical string the
first call returns — and at most one store write happens over the whole
process lifetime, with zero writes whenever the first call already
finds a truthy stored value. -/
theorem getClientId_idempotent_at_most_one_write
    (u : String) (us : List String) (store : Store)
    (hu : isUuidFormat u = true) :
    (∀ c ∈ (runGetClientIdCalls (u :: us) ⟨none⟩ store).cids,
        c = (getAnalyticsClientId u ⟨none⟩ store).cid) ∧
    (runGetClientIdCalls (u :: us) ⟨none⟩ store).writes ≤ 1 ∧
    (jsTruthyStr (lookupKV store "clientId") = true →
       (runGetClientIdCalls (u :: us) ⟨none⟩ store).writes = 0) := by
  have hne := isUuidFormat_ne_empty u hu
  have hct := getAnalyticsClientId_cache_truthy u ⟨none⟩ store hne
  have hce := getAnalyticsClientId_cache_eq u ⟨none⟩ store
  have hcne : (getAnalyticsClientId u ⟨none⟩ store).cid ≠ "" := by
    rw [hce] at hct
    simpa [jsTruthyStr] using hct
  have hrun := runGetClientIdCalls_cached us
    (getAnalyticsClientId u ⟨none⟩ store).st
    (getAnalyticsClientId u ⟨none⟩ store).store
    (getAnalyticsClientId u ⟨none⟩ store).cid hce hcne
  refine ⟨?_, ?_, ?_⟩
  · intro c hc
    simp only [runGetClientIdCalls] at hc
    rw [hrun] at hc
    simp at hc
    rcases hc with hc | hc
    · exact hc
    · exact hc.2
  · simp only [runGetClientIdCalls]
    rw [hrun]
    have := getAnalyticsClientId_writes_le_one u ⟨none⟩ store
    simpa using this
  · intro hs
    simp only [runGetClientIdCalls]
    rw [hrun]
    have h0 := getAnalyticsClientId_read_hit u ⟨none⟩ store
      (by simp [jsTruthyStr]) hs
    simpa using h0

theorem getClientId_idempotent_at_most_one_write_witness :
    (runGetClientIdCalls
        ["123e4567-e89b-42d3-a456-426614174000", "a", "b"] ⟨none⟩ []).writes
      ≤ 1 :=
  (getClientId_idempotent_at_most_one_write
    "123e4567-e89b-42d3-a456-426614174000" ["a", "b"] [] (by decide)).2.1

/-- Claim C6: every successful normalization result carries the keys
`v`, `tid`, `cid`, `t` and `z`; the keys `aip` and `ds` are present in
the result whenever dispatch is via HTTP POST, and are absent when it
is not — unless the caller supplied them. -/
theorem normalize_result_key_invariant (cfg : Option String) (uuid : String)
    (rand : Nat) (ps : Params) (st : ProcState) (store : Store) (via : Bool)
    (res : Params)
    (h : (addRequiredParameters cfg uuid rand ps st store via).result =
      .ok res) :
    (lookupKV res "v").isSome = true ∧ (lookupKV res "tid").isSome = true ∧
    (lookupKV res "cid").isSome = true ∧ (lookupKV res "t").isSome = true ∧
    (lookupKV res "z").isSome = true ∧
    (via = true →
       (lookupKV res "aip").isSome = true ∧
       (lookupKV res "ds").isSome = true) ∧
    (via = false →
       (lookupKV ps "aip" = none → lookupKV res "aip" = none) ∧
       (lookupKV ps "ds" = none → lookupKV res "ds" = none)) := by
  rcases addRequiredParameters_ok_cases cfg uuid rand ps st store via res h
    with ⟨h1, rfl⟩ | ⟨h1, h2, rfl⟩
  · refine ⟨by simp [restParams_v], ?_, by simp [restParams_cid], ?_,
      by simp [restParams_z], ?_, ?_⟩
    · rw [restParams_tid]
      exact jsTruthy_isSome _ h1
    · rw [restParams_t]
      split_ifs with ht
      · exact jsTruthy_isSome _ ht
      · simp
    · intro hv
      rw [restParams_aip, restParams_ds, if_pos hv, if_pos hv]
      refine ⟨by simp, ?_⟩
      split_ifs with hd
      · exact jsTruthy_isSome _ hd
      · simp
    · intro hv
      rw [restParams_aip, restParams_ds, hv]
      exact ⟨fun ha => by simpa using ha, fun hd => by simpa using hd⟩
  · refine ⟨by simp [restParams_v], ?_, by simp [restParams_cid], ?_,
      by simp [restParams_z], ?_, ?_⟩
    · rw [restParams_tid, lookupKV_setKV]
      simp
    · rw [restParams_t]
      split_ifs with ht
      · exact jsTruthy_isSome _ ht
      · simp
    · intro hv
      rw [restParams_aip, restParams_ds, if_pos hv, if_pos hv]
      refine ⟨by simp, ?_⟩
      split_ifs with hd
      · exact jsTruthy_isSome _ hd
      · simp
    · intro hv
      rw [restParams_aip, restParams_ds, hv]
      constructor
      · intro ha
        simp only [if_neg Bool.false_ne_true]
        rw [lookupKV_setKV]
        simp [ha]
      · intro hd
        simp only [if_neg Bool.false_ne_true]
        rw [lookupKV_setKV]
        simp [hd]

theorem normalize_result_key_invariant_witness :
    (lookupKV [("tid", JSVal.str "UA-1"), ("cid", JSVal.str "u"),
      ("t", JSVal.str "event"), ("el", JSVal.str ""), ("v", JSVal.str "1"),
      ("z", JSVal.num 0), ("ds", JSVal.str "urlFetch"),
      ("aip", JSVal.str "1")] "v").isSome = true :=
  (normalize_result_key_invariant (some "UA-1") "u" 0 [] ⟨none⟩ [] true
    [("tid", JSVal.str "UA-1"), ("cid", JSVal.str "u"),
     ("t", JSVal.str "event"), ("el", JSVal.str ""), ("v", JSVal.str "1"),
     ("z", JSVal.num 0), ("ds", JSVal.str "urlFetch"),
     ("aip", JSVal.str "1")] rfl).1

/-- Claim C7: when the caller's parameter set already carries a (truthy)
`tid`, the normalized result keeps exactly the caller's value — the
process-wide default tracking ID is never substituted for it. -/
theorem normalize_keeps_caller_tid (cfg : Option String) (uuid : String)
    (rand : Nat) (ps : Params) (st : ProcState) (store : Store) (via : Bool)
    (res : Params)
    (htid : jsTruthy (lookupKV ps "tid") = true)
    (h : (addRequiredParameters cfg uuid rand ps st store via).result =
      .ok res) :
    lookupKV res "tid" = lookupKV ps "tid" := by
  rcases addRequiredParameters_ok_cases cfg uuid rand ps st store via res h
    with ⟨h1, rfl⟩ | ⟨h1, h2, rfl⟩
  · exact restParams_tid _ _ _ _
  · rw [h1] at htid
    cases htid

theorem normalize_keeps_caller_tid_witness :
    lookupKV [("tid", JSVal.str "UA-9"), ("cid", JSVal.str "u"),
      ("t", JSVal.str "event"), ("el", JSVal.str ""), ("v", JSVal.str "1"),
      ("z", JSVal.num 0)] "tid" =
    lookupKV [("tid", JSVal.str "UA-9")] "tid" :=
  normalize_keeps_caller_tid none "u" 0 [("tid", JSVal.str "UA-9")] ⟨none⟩ []
    false
    [("tid", JSVal.str "UA-9"), ("cid", JSVal.str "u"),
     ("t", JSVal.str "event"), ("el", JSVal.str ""), ("v", JSVal.str "1"),
     ("z", JSVal.num 0)] (by decide) rfl

/-- Claim C8: the event-label default applies exactly for the resolved
hit type "event": when the result's `t` is "event" and the caller
supplied no `el`, the result carries `el` = ""; when the resolved hit
type is anything else, no `el` key is injected. -/
theorem normalize_event_label_default (cfg : Option String) (uuid : String)
    (rand : Nat) (ps : Params) (st : ProcState) (store : Store) (via : Bool)
    (res : Params)
    (h : (addRequiredParameters cfg uuid rand ps st store via).result =
      .ok res) :
    (lookupKV res "t" = some (JSVal.str "event") → lookupKV ps "el" = none →
       lookupKV res "el" = some (JSVal.str "")) ∧
    (lookupKV res "t" ≠ some (JSVal.str "event") → lookupKV ps "el" = none →
       lookupKV res "el" = none) := by
  rcases addRequiredParameters_ok_cases cfg uuid rand ps st store via res h
    with ⟨h1, rfl⟩ | ⟨h1, h2, rfl⟩
  · exact restParams_el_cases _ _ _ _
  · have hel : lookupKV (setKV ps "tid" (JSVal.str (cfg.getD ""))) "el" =
        lookupKV ps "el" := by
      rw [lookupKV_setKV]; simp
    have hc := restParams_el_cases (getAnalyticsClientId uuid st store).cid
      rand (setKV ps "tid" (JSVal.str (cfg.getD ""))) via
    rw [hel] at hc
    exact hc

theorem normalize_event_label_default_witness :
    lookupKV [("t", JSVal.str "pageview"), ("tid", JSVal.str "UA-1"),
      ("cid", JSVal.str "u"), ("v", JSVal.str "1"), ("z", JSVal.num 0)]
      "el" = none :=
  (normalize_event_label_default (some "UA-1") "u" 0
    [("t", JSVal.str "pageview")] ⟨none⟩ [] false
    [("t", JSVal.str "pageview"), ("tid", JSVal.str "UA-1"),
     ("cid", JSVal.str "u"), ("v", JSVal.str "1"), ("z", JSVal.num 0)]
    rfl).2 (by decide) rfl

/-- Claim C9: on every successful normalization the cache buster `z` is
the freshly generated `Math.floor(Math.random() * 10E7)` value — a
non-negative integer strictly below 10^8 — set unconditionally no
matter what `z` the caller supplied, and every one of the 10^8 values
in [0, 10^8) is attainable by the generator. -/
theorem normalize_cache_buster_fresh_and_bounded (cfg : Option String)
    (uuid : String) (rand : Nat) (ps : Params) (st : ProcState)
    (store : Store) (via : Bool) (res : Params)
    (hr : rand < 9007199254740992)
    (h : (addRequiredParameters cfg uuid rand ps st store via).result =
      .ok res) :
    lookupKV res "z" = some (JSVal.num (jsRandFloor rand)) ∧
    jsRandFloor rand < 100000000 ∧
    (∀ v, v < 100000000 →
       ∃ r, r < 9007199254740992 ∧ jsRandFloor r = v) := by
  refine ⟨?_, ?_, ?_⟩
  · rcases addRequiredParameters_ok_cases cfg uuid rand ps st store via res h
      with ⟨h1, rfl⟩ | ⟨h1, h2, rfl⟩ <;> exact restParams_z _ _ _ _
  · unfold jsRandFloor
    omega
  · intro v hv
    refine ⟨(v * 9007199254740992 + 99999999) / 100000000, by omega, ?_⟩
    unfold jsRandFloor
    omega

theorem normalize_cache_buster_fresh_and_bounded_witness :
    lookupKV [("z", JSVal.num 0), ("tid", JSVal.str "UA-1"),
      ("cid", JSVal.str "u"), ("t", JSVal.str "event"),
      ("el", JSVal.str ""), ("v", JSVal.str "1")] "z" =
      some (JSVal.num (jsRandFloor 0)) :=
  (normalize_cache_buster_fresh_and_bounded (some "UA-1") "u" 0
    [("z", JSVal.num 55)] ⟨none⟩ [] false
    [("z", JSVal.num 0), ("tid", JSVal.str "UA-1"), ("cid", JSVal.str "u"),
     ("t", JSVal.str "event"), ("el", JSVal.str ""), ("v", JSVal.str "1")]
    (by decide) rfl).1

/-- Claim C10: normalization decides "absent" by JavaScript truthiness,
not key membership — a caller-supplied falsy value behaves like a
missing key: a falsy `tid` falls back to the process tracking ID or
raises the configuration error; a falsy `t` resolves to "event"; a
falsy `el` under an event hit is replaced by the empty string; and a
falsy `ds` under HTTP-POST dispatch becomes "urlFetch". -/
theorem normalize_falsy_values_treated_as_missing (cfg : Option String)
    (uuid : String) (rand : Nat) (ps : Params) (st : ProcState)
    (store : Store) (via : Bool) :
    (∀ tv, lookupKV ps "tid" = some tv → jsTruthyV tv = false →
       (jsTruthyStr cfg = false →
          (addRequiredParameters cfg uuid rand ps st store via).result =
            .error TRACKING_ID_REQUIRED) ∧
       (∀ c, cfg = some c → c ≠ "" → ∀ res,
          (addRequiredParameters cfg uuid rand ps st store via).result =
            .ok res →
          lookupKV res "tid" = some (JSVal.str c))) ∧
    (∀ tv, lookupKV ps "t" = some tv → jsTruthyV tv = false → ∀ res,
       (addRequiredParameters cfg uuid rand ps st store via).result =
         .ok res →
       lookupKV res "t" = some (JSVal.str "event")) ∧
    (∀ ev, lookupKV ps "el" = some ev → jsTruthyV ev = false → ∀ res,
       (addRequiredParameters cfg uuid rand ps st store via).result =
         .ok res →
       lookupKV res "t" = some (JSVal.str "event") →
       lookupKV res "el" = some (JSVal.str "")) ∧
    (via = true → ∀ dv, lookupKV ps "ds" = some dv → jsTruthyV dv = false →
       ∀ res,
       (addRequiredParameters cfg uuid rand ps st store via).result =
         .ok res →
       lookupKV res "ds" = some (JSVal.str "urlFetch")) := by
  refine ⟨?_, ?_, ?_, ?_⟩
  · intro tv htv hfalsy
    have h1 : jsTruthy (lookupKV ps "tid") = false := by
      rw [htv]; simpa [jsTruthy] using hfalsy
    constructor
    · intro hcfg
      rw [addRequiredParameters_tid_falsy_nocfg cfg uuid rand ps st store via
        h1 hcfg]
    · intro c hc hcne res hres
      have h2 : jsTruthyStr cfg = true := by
        rw [hc]; simpa [jsTruthyStr] using hcne
      rw [addRequiredParameters_tid_falsy_cfg cfg uuid rand ps st store via
        h1 h2] at hres
      simp at hres
      rw [← hres, restParams_tid, lookupKV_setKV, hc]
      simp
  · intro tv htv hfalsy res hres
    rcases addRequiredParameters_ok_cases cfg uuid rand ps st store via res
      hres with ⟨h1, rfl⟩ | ⟨h1, h2, rfl⟩
    · rw [restParams_t, htv]
      simp [jsTruthy, hfalsy]
    · rw [restParams_t, lookupKV_setKV]
      simp [jsTruthy, htv, hfalsy]
  · intro ev hev hfalsy res hres ht
    rcases addRequiredParameters_ok_cases cfg uuid rand ps st store via res
      hres with ⟨h1, rfl⟩ | ⟨h1, h2, rfl⟩
    · rw [restParams_t] at ht
      rw [restParams_el,
        if_pos ⟨ht, by rw [hev]; simpa [jsTruthy] using hfalsy⟩]
    · rw [restParams_t] at ht
      rw [restParams_el,
        if_pos ⟨ht, by rw [lookupKV_setKV]; simp [hev, jsTruthy, hfalsy]⟩]
  · intro hv dv hdv hfalsy res hres
    rcases addRequiredParameters_ok_cases cfg uuid rand ps st store via res
      hres with ⟨h1, rfl⟩ | ⟨h1, h2, rfl⟩
    · rw [restParams_ds, if_pos hv,
        if_neg (by rw [hdv]; simp [jsTruthy, hfalsy])]
    · rw [restParams_ds, if_pos hv,
        if_neg (by rw [lookupKV_setKV]; simp [hdv, jsTruthy, hfalsy])]

theorem normalize_falsy_values_treated_as_missing_witness :
    lookupKV [("tid", JSVal.str "UA-7"), ("t", JSVal.str "event"),
      ("cid", JSVal.str "u"), ("el", JSVal.str ""), ("v", JSVal.str "1"),
      ("z", JSVal.num 0)] "t" = some (JSVal.str "event") :=
  (normalize_falsy_values_treated_as_missing none "u" 0
    [("tid", JSVal.str "UA-7"), ("t", JSVal.str "")] ⟨none⟩ [] false).2.1
    (JSVal.str "") (by decide) (by decide)
    [("tid", JSVal.str "UA-7"), ("t", JSVal.str "event"),
     ("cid", JSVal.str "u"), ("el", JSVal.str ""), ("v", JSVal.str "1"),
     ("z", JSVal.num 0)] rfl

/-- Claim C2 (code evaluation at the failing input): for the normalized
set produced from empty caller parameters, `generateAnalyticsTrackingUrl`
joins the serialized pairs with the five-character HTML entity "&amp;"
(and renders the numeric-zero cache buster as "z=0", since its
key-alone test is the strict comparison `=== ''`), so its output
differs from the endpoint followed by the spec's serialization rule
(key alone for every falsy value, pairs joined with a literal "&")
applied to the same normalized parameter set. -/
theorem generateUrl_separator_is_amp_entity :
    (generateAnalyticsTrackingUrl (some "UA-1") "u" 0 [] ⟨none⟩ []).result =
      .ok ("https://www.google-analytics.com/collect?" ++
        "tid=UA-1&amp;cid=u&amp;t=event&amp;el&amp;v=1&amp;z=0") ∧
    specSerializeClaim [("tid", JSVal.str "UA-1"), ("cid", JSVal.str "u"),
      ("t", JSVal.str "event"), ("el", JSVal.str ""), ("v", JSVal.str "1"),
      ("z", JSVal.num 0)] = "tid=UA-1&cid=u&t=event&el&v=1&z" ∧
    (generateAnalyticsTrackingUrl (some "UA-1") "u" 0 [] ⟨none⟩ []).result ≠
      .ok ("https://www.google-analytics.com/collect?" ++
        specSerializeClaim [("tid", JSVal.str "UA-1"), ("cid", JSVal.str "u"),
          ("t", JSVal.str "event"), ("el", JSVal.str ""),
          ("v", JSVal.str "1"), ("z", JSVal.num 0)]) := by
  have h1 : (generateAnalyticsTrackingUrl (some "UA-1") "u" 0 []
      ⟨none⟩ []).result =
      .ok ("https://www.google-analytics.com/collect?" ++
        "tid=UA-1&amp;cid=u&amp;t=event&amp;el&amp;v=1&amp;z=0") := rfl
  refine ⟨h1, rfl, ?_⟩
  intro h
  rw [h1, Except.ok.injEq] at h
  exact absurd h (by decide)

end AnalyticsMP
